import Mathlib

/-!
Shallow embedding of `oled_monitor.py` (OLED system-monitor daemon,
`build-armbian/armbian-files/different-files/h28k/rootfs/usr/local/bin/oled_monitor.py`).

The daemon's effectful primitives (serial open, device commands, drawing,
sysfs reads, address-table queries) are modelled by explicit oracle inputs:
a `Bool` (or an outcome value) saying whether the underlying call succeeds.
Every Python function that swallows its exceptions is embedded as a total
Lean function; a Python function that mutates `self` becomes a function
from state to state.  Time (`time.time()`) is passed in explicitly as a
rational number.
-/

set_option autoImplicit false

namespace OledMonitor

/-! ## Telemetry reader: `get_cpu_info` (lines 343-365)

`get_cpu_info` reads two sysfs paths inside a single try/except.  For each
path the possible outcomes are: the path does not exist (`os.path.exists`
false, logged, value stays 0.0), the path exists but opening / reading /
parsing raises (the exception escapes to the single outer handler, which
returns `(0.0, 0.0)`), or the read yields a numeric value `raw`, in which
case the reading is `raw / 1000`. -/

/-- Outcome of one sysfs read attempt: path absent, path present but the
open/read/parse raised, or a parsed numeric value. -/
inductive ReadResult where
  | missing : ReadResult
  | err : ReadResult
  | ok : ℚ → ReadResult
deriving DecidableEq

/-- Embedding of `get_cpu_info`: temperature read first, then frequency,
both inside one try/except that returns `(0.0, 0.0)` on any exception. -/
def get_cpu_info (tempRead freqRead : ReadResult) : ℚ × ℚ :=
  match tempRead with
  | .err => (0, 0)
  | .missing =>
    match freqRead with
    | .err => (0, 0)
    | .missing => (0, 0)
    | .ok rawF => (0, rawF / 1000)
  | .ok rawT =>
    match freqRead with
    | .err => (0, 0)
    | .missing => (rawT / 1000, 0)
    | .ok rawF => (rawT / 1000, rawF / 1000)

/-! ## Telemetry reader: `get_ip_address` (lines 326-341) -/

/-- Socket address family of one interface address entry. -/
inductive AddrFamily where
  | inet : AddrFamily
  | inet6 : AddrFamily
  | packet : AddrFamily
deriving DecidableEq

/-- One entry of `psutil.net_if_addrs()[iface]`. -/
structure IfAddr where
  family : AddrFamily
  address : String
deriving DecidableEq

/-- Embedding of `get_ip_address`: look the interface up in the address
table (`.get(interface, [])`), return the first `AF_INET` entry's address,
else the sentinel `"ip:N/A"`.  `raisesErr` models the enclosing try/except:
if the underlying `psutil` call raises, the handler returns the sentinel. -/
def get_ip_address (raisesErr : Bool) (table : List (String × List IfAddr))
    (interface : String) : String :=
  if raisesErr then "ip:N/A"
  else
    let addrs := (table.lookup interface).getD []
    match addrs.find? (fun a => a.family = AddrFamily.inet) with
    | some a => a.address
    | none => "ip:N/A"

/-! ## Configuration merging: `load_config` (lines 64-194)

Command-line values are `Option Int` (absent flag = `None`); config-file
values are `Option Int` (`getint` with a `fallback` default).  The source
merges `i2c_port`, `refresh_interval`, `font_size` and `reset_interval`
with Python `or` (so a falsy command-line value, i.e. `0`, falls through),
and merges `horizontal_mirror`, `vertical_mirror`, `x_offset`, `y_offset`
with an `is not None` test. -/

/-- Python `args.x or fallbackValue` where `args.x` is `None` or an int:
`None` and `0` are falsy, everything else is kept. -/
def pyOr (cli : Option Int) (fb : Int) : Int :=
  match cli with
  | none => fb
  | some v => if v = 0 then fb else v

/-- Python `args.x if args.x is not None else fallbackValue`. -/
def pyIfNotNone (cli : Option Int) (fb : Int) : Int :=
  match cli with
  | none => fb
  | some v => v

/-- `config.getint(section, key, fallback=d)`: the file value if the key is
present, else the fallback. -/
def getint (fileVal : Option Int) (d : Int) : Int := fileVal.getD d

/-- The integer command-line arguments of `load_config` that take part in
the merge (each `None` when the flag was not given). -/
structure Args where
  i2c_port : Option Int
  refresh : Option Int
  font_size : Option Int
  reset_interval : Option Int
  horizontal_mirror : Option Int
  vertical_mirror : Option Int
  x_offset : Option Int
  y_offset : Option Int
deriving DecidableEq

/-- The corresponding config-file entries (each `None` when the key is
absent from the file). -/
structure FileConf where
  i2c_port : Option Int
  refresh_interval : Option Int
  font_size : Option Int
  reset_interval : Option Int
  horizontal_mirror : Option Int
  vertical_mirror : Option Int
  x_offset : Option Int
  y_offset : Option Int
deriving DecidableEq

/-- The merged integer fields of `app_config`. -/
structure AppConfig where
  i2c_port : Int
  refresh_interval : Int
  font_size : Int
  reset_interval : Int
  horizontal_mirror : Int
  vertical_mirror : Int
  x_offset : Int
  y_offset : Int
deriving DecidableEq

/-- Embedding of the merge part of `load_config` (lines 116-185), with the
defaults of `DEFAULT_CONFIG` (lines 31-47). -/
def load_config (args : Args) (file : FileConf) : AppConfig where
  i2c_port := pyOr args.i2c_port (getint file.i2c_port 6)
  refresh_interval := pyOr args.refresh (getint file.refresh_interval 1)
  font_size := pyOr args.font_size (getint file.font_size 10)
  reset_interval := pyOr args.reset_interval (getint file.reset_interval 3600)
  horizontal_mirror := pyIfNotNone args.horizontal_mirror (getint file.horizontal_mirror 0)
  vertical_mirror := pyIfNotNone args.vertical_mirror (getint file.vertical_mirror 1)
  x_offset := pyIfNotNone args.x_offset (getint file.x_offset 0)
  y_offset := pyIfNotNone args.y_offset (getint file.y_offset 0)

/-! ## `OLEDManager` lifecycle (lines 197-318)

The manager's mutable state is `self.device` (present or `None`) and
`self.last_reset_time`.  The embedding adds a ghost counter `initCount`
recording how many times `init_display` has been invoked, so that claims
about "attempts one `initDisplay`" are statable; it changes on no other
operation.  The outcome of each physical open/configure attempt is given
by an oracle `Nat → Bool` indexed by `initCount` (the n-th `init_display`
call of a run consults index n), and `time.time()` is the explicit `now`
argument. -/

/-- Configuration consumed by the lifecycle operations. -/
structure Config where
  reset_interval : ℚ
deriving DecidableEq

/-- Manager state: `device` is `true` when `self.device` is not `None`;
`last_reset_time` mirrors `self.last_reset_time`; `initCount` is a ghost
count of `init_display` invocations. -/
structure Sys where
  device : Bool
  last_reset_time : ℚ
  initCount : Nat
deriving DecidableEq

/-- Embedding of `init_display` (lines 210-243).  The optional cleanup of a
pre-existing handle (lines 213-220) only logs on failure and does not touch
the fields modelled here.  If the open/configure sequence succeeds the new
handle is installed and `last_reset_time` is refreshed to `now`; on any
exception the handler sets `self.device = None` and returns `False`,
leaving `last_reset_time` unchanged. -/
def init_display (oracle : Nat → Bool) (now : ℚ) (s : Sys) : Bool × Sys :=
  if oracle s.initCount then
    (true, { device := true, last_reset_time := now, initCount := s.initCount + 1 })
  else
    (false, { device := false, last_reset_time := s.last_reset_time,
              initCount := s.initCount + 1 })

/-- Embedding of `check_and_reset` (lines 278-284): when the elapsed time
since `last_reset_time` exceeds `reset_interval`, run `init_display` and
return its outcome; otherwise return `True` with no state change. -/
def check_and_reset (cfg : Config) (oracle : Nat → Bool) (now : ℚ) (s : Sys) :
    Bool × Sys :=
  if now - s.last_reset_time > cfg.reset_interval then
    init_display oracle now s
  else
    (true, s)

/-- Embedding of `display_info` (lines 286-318).  `drawOk` is the oracle
for the drawing block (the `with canvas(...)` body): `false` means some
draw call or the context flush raised.  The guard
`if not self.device or not self.check_and_reset()` short-circuits, so
`check_and_reset` is consulted only when a handle is present; when the
guard fires, one recovery `init_display` is attempted and failure is
returned only if it fails.  A drawing exception triggers a recovery
`init_display` and then returns `False`. -/
def display_info (cfg : Config) (oracle : Nat → Bool) (drawOk : Bool)
    (now : ℚ) (s : Sys) : Bool × Sys :=
  let pre : Bool × Sys :=
    if s.device then check_and_reset cfg oracle now s else (false, s)
  let ready : Bool × Sys :=
    if pre.1 then (true, pre.2) else init_display oracle now pre.2
  if ready.1 then
    if drawOk then (true, ready.2)
    else (false, (init_display oracle now ready.2).2)
  else
    (false, ready.2)

/-- Outcome of one raw device call (`hide`, `clear`, `device.cleanup`):
either it returns or it raises. -/
inductive DevResult where
  | ok : DevResult
  | err : DevResult
deriving DecidableEq

/-- Failure pattern of the raw device calls made during teardown. -/
structure DevEnv where
  hideRes : DevResult
  clearRes : DevResult
  closeRes : DevResult
deriving DecidableEq

/-- Embedding of `clear_screen` (lines 245-254): when a handle is present,
attempt `hide()` then `clear()` inside a try/except that logs and swallows
any exception (if `hide` raises, `clear` is not attempted).  The second
component counts raw device calls attempted.  No state field changes. -/
def clear_screen (env : DevEnv) (s : Sys) : Sys × Nat :=
  if s.device then
    match env.hideRes with
    | .err => (s, 1)
    | .ok => (s, 2)
  else
    (s, 0)

/-- Embedding of `cleanup` (lines 264-276): best-effort `clear_screen`
(its own handler already swallows device errors), then, when a handle is
present, a best-effort `device.cleanup()` whose exception is swallowed,
then `self.device = None`.  The second component counts raw device calls
attempted. -/
def cleanup (env : DevEnv) (s : Sys) : Sys × Nat :=
  let c := clear_screen env s
  if c.1.device then
    ({ c.1 with device := false }, c.2 + 1)
  else
    (c.1, c.2)

/-! ## Supervisor loop: `main` (lines 368-453)

The loop body calls `display_info`; on failure the watchdog counter is
incremented and, when it reaches `max_watchdog_errors`, a `RuntimeError`
is raised.  That exception is caught by the loop's own
`except Exception` handler (line 443), the `finally` block runs
`oled_manager.cleanup()` once, `main` returns normally, and the process
exit status is 0.  A trace is the finite list of per-tick `display_info`
outcomes up to the moment the process stops being observed; reaching the
end of the trace models termination by `KeyboardInterrupt`/`SystemExit`
(clean termination), which is caught and also falls through to `finally`. -/

/-- `max_watchdog_errors` (line 418). -/
def max_watchdog_errors : Nat := 10

/-- One tick of the watchdog bookkeeping (lines 425-434): on success the
counter resets to 0; on failure it is incremented and the second component
tells whether the `RuntimeError` of line 432 is raised. -/
def watchdogStep (counter : Nat) (success : Bool) : Nat × Bool :=
  if success then (0, false)
  else (counter + 1, decide (counter + 1 ≥ max_watchdog_errors))

/-- Run the supervisor loop over a trace of `display_info` outcomes:
`none` means the loop raised the watchdog `RuntimeError`; `some c` means
the whole trace was consumed and the counter stands at `c`. -/
def runLoop (counter : Nat) : List Bool → Option Nat
  | [] => some counter
  | t :: ts =>
    let step := watchdogStep counter t
    if step.2 then none else runLoop step.1 ts

/-- Observable outcome of one run of `main`. -/
structure MainResult where
  exitCode : Nat
  cleanupCalls : Nat
deriving DecidableEq

/-- Embedding of `main`'s exit behaviour (lines 387-453).
`usableInterface` is false when the configured interface is absent and no
substitute interface exists: then `exit(1)` runs before the loop (line
398) and no cleanup happens.  Otherwise the loop runs over the trace; both
the watchdog `RuntimeError` and a clean interruption are caught by the
`except` clauses, the `finally` block runs `cleanup` exactly once, and
`main` returns, so the interpreter exits with status 0. -/
def mainModel (usableInterface : Bool) (trace : List Bool) : MainResult :=
  if usableInterface then
    match runLoop 0 trace with
    | none => { exitCode := 0, cleanupCalls := 1 }
    | some _ => { exitCode := 0, cleanupCalls := 1 }
  else
    { exitCode := 1, cleanupCalls := 0 }

/-! ## Theorems -/

/-- Helper: `find?` returns the first element satisfying the predicate. -/
theorem findFirstAppend {α : Type} (p : α → Bool) (l₁ l₂ : List α) (a : α)
    (h₁ : ∀ b ∈ l₁, p b = false) (ha : p a = true) :
    (l₁ ++ a :: l₂).find? p = some a := by
  induction l₁ with
  | nil => simp [List.find?, ha]
  | cons x xs ih =>
    have hx : p x = false := h₁ x (List.mem_cons_self x xs)
    simp only [List.cons_append, List.find?, hx]
    exact ih fun b hb => h₁ b (List.mem_cons_of_mem x hb)

/-- C6: for readable sensor paths, the temperature reading is the raw value
divided by 1000 (Celsius) and the frequency reading is the raw value
divided by 1000 (MHz) — raw 45000 yields 45.0 and raw 1800000 yields
1800; a missing or unreadable path makes the corresponding reading 0.0,
and `get_cpu_info` is total (never raises to the caller). -/
theorem get_cpu_info_spec :
    (∀ rawT rawF : ℚ, get_cpu_info (.ok rawT) (.ok rawF) = (rawT / 1000, rawF / 1000)) ∧
    get_cpu_info (.ok 45000) (.ok 1800000) = (45, 1800) ∧
    (∀ fr, (get_cpu_info .missing fr).1 = 0) ∧
    (∀ tr, (get_cpu_info tr .missing).2 = 0) ∧
    (∀ fr, (get_cpu_info .err fr).1 = 0) ∧
    (∀ tr, (get_cpu_info tr .err).2 = 0) := by
  refine ⟨fun rawT rawF => rfl, by norm_num [get_cpu_info], ?_, ?_, ?_, ?_⟩ <;>
    intro r <;> cases r <;> simp [get_cpu_info]

/-- C9: the two fallbacks are coupled — an exception while reading the
temperature path makes `get_cpu_info` return `(0.0, 0.0)` for both values,
skipping the frequency read even when the frequency path is readable. -/
theorem get_cpu_info_coupled_fallback :
    (∀ fr, get_cpu_info .err fr = (0, 0)) ∧
    get_cpu_info .err (.ok 1800000) = (0, 0) :=
  ⟨fun fr => by cases fr <;> rfl, rfl⟩

/-- C7: `get_ip_address` returns the first IPv4 address bound to the
interface when one exists, the sentinel `"ip:N/A"` when the interface is
absent from the table or has no IPv4 address, and the sentinel (rather
than propagating the exception) when the underlying query raises. -/
theorem get_ip_address_spec :
    (∀ (table : List (String × List IfAddr)) (iface : String),
      table.lookup iface = none → get_ip_address false table iface = "ip:N/A") ∧
    (∀ (table : List (String × List IfAddr)) (iface : String) (addrs : List IfAddr),
      table.lookup iface = some addrs → (∀ a ∈ addrs, a.family ≠ .inet) →
      get_ip_address false table iface = "ip:N/A") ∧
    (∀ (table : List (String × List IfAddr)) (iface : String)
      (l₁ l₂ : List IfAddr) (a : IfAddr),
      table.lookup iface = some (l₁ ++ a :: l₂) → (∀ b ∈ l₁, b.family ≠ .inet) →
      a.family = .inet → get_ip_address false table iface = a.address) ∧
    (∀ (table : List (String × List IfAddr)) (iface : String),
      get_ip_address true table iface = "ip:N/A") := by
  refine ⟨?_, ?_, ?_, fun table iface => rfl⟩
  · intro table iface h
    simp [get_ip_address, h]
  · intro table iface addrs h hnone
    have hfind : addrs.find? (fun a => a.family = AddrFamily.inet) = none := by
      rw [List.find?_eq_none]
      intro a ha
      simpa using hnone a ha
    simp [get_ip_address, h, hfind]
  · intro table iface l₁ l₂ a h hl₁ ha
    have hfind : (l₁ ++ a :: l₂).find? (fun b => b.family = AddrFamily.inet) = some a := by
      refine findFirstAppend _ l₁ l₂ a (fun b hb => ?_) (by simpa using ha)
      simpa using hl₁ b hb
    simp [get_ip_address, h, hfind]

/-- Closed instance of `get_ip_address_spec` at concrete tables. -/
theorem get_ip_address_spec_witness :
    get_ip_address false [] "eth0" = "ip:N/A" ∧
    get_ip_address false [("eth0", [⟨.inet6, "fe80:1"⟩])] "eth0" = "ip:N/A" ∧
    get_ip_address false
      [("eth0", [⟨.inet6, "fe80:1"⟩, ⟨.inet, "192.168.1.2"⟩, ⟨.inet, "10.0.0.9"⟩])]
      "eth0" = "192.168.1.2" :=
  ⟨get_ip_address_spec.1 [] "eth0" rfl,
   get_ip_address_spec.2.1 [("eth0", [⟨.inet6, "fe80:1"⟩])] "eth0"
     [⟨.inet6, "fe80:1"⟩] rfl (by decide),
   get_ip_address_spec.2.2.1
     [("eth0", [⟨.inet6, "fe80:1"⟩, ⟨.inet, "192.168.1.2"⟩, ⟨.inet, "10.0.0.9"⟩])]
     "eth0" [⟨.inet6, "fe80:1"⟩] [⟨.inet, "10.0.0.9"⟩] ⟨.inet, "192.168.1.2"⟩
     rfl (by decide) rfl⟩

/-- C10: in the configuration merge, a command-line value of 0 for the
`or`-merged options (`i2c_port`, refresh interval, font size, reset
interval) falls through to the config-file/default value, while a
command-line value of 0 for the `is not None`-merged options (mirrors and
offsets) is honored; non-zero command-line values win everywhere. -/
theorem load_config_cli_precedence :
    ∀ (args : Args) (file : FileConf),
      (args.i2c_port = some 0 →
        (load_config args file).i2c_port = getint file.i2c_port 6) ∧
      (args.refresh = some 0 →
        (load_config args file).refresh_interval = getint file.refresh_interval 1) ∧
      (args.font_size = some 0 →
        (load_config args file).font_size = getint file.font_size 10) ∧
      (args.reset_interval = some 0 →
        (load_config args file).reset_interval = getint file.reset_interval 3600) ∧
      (∀ v : Int, v ≠ 0 → args.i2c_port = some v →
        (load_config args file).i2c_port = v) ∧
      (∀ v : Int, v ≠ 0 → args.refresh = some v →
        (load_config args file).refresh_interval = v) ∧
      (∀ v : Int, v ≠ 0 → args.font_size = some v →
        (load_config args file).font_size = v) ∧
      (∀ v : Int, v ≠ 0 → args.reset_interval = some v →
        (load_config args file).reset_interval = v) ∧
      (∀ v : Int, args.horizontal_mirror = some v →
        (load_config args file).horizontal_mirror = v) ∧
      (∀ v : Int, args.vertical_mirror = some v →
        (load_config args file).vertical_mirror = v) ∧
      (∀ v : Int, args.x_offset = some v →
        (load_config args file).x_offset = v) ∧
      (∀ v : Int, args.y_offset = some v →
        (load_config args file).y_offset = v) := by
  intro args file
  refine ⟨fun h => ?_, fun h => ?_, fun h => ?_, fun h => ?_,
    fun v hv h => ?_, fun v hv h => ?_, fun v hv h => ?_, fun v hv h => ?_,
    fun v h => ?_, fun v h => ?_, fun v h => ?_, fun v h => ?_⟩
  case _ => simp [load_config, pyOr, h]
  case _ => simp [load_config, pyOr, h]
  case _ => simp [load_config, pyOr, h]
  case _ => simp [load_config, pyOr, h]
  case _ => simp [load_config, pyOr, h, hv]
  case _ => simp [load_config, pyOr, h, hv]
  case _ => simp [load_config, pyOr, h, hv]
  case _ => simp [load_config, pyOr, h, hv]
  case _ => simp [load_config, pyIfNotNone, h]
  case _ => simp [load_config, pyIfNotNone, h]
  case _ => simp [load_config, pyIfNotNone, h]
  case _ => simp [load_config, pyIfNotNone, h]

/-- Closed instance of `load_config_cli_precedence`: command line gives 0
for every option against a file that sets `i2c_port = 9` and
`x_offset = 7`; the `or`-merged port falls back to 9 while the
`is not None`-merged offset becomes 0. -/
theorem load_config_cli_precedence_witness :
    (load_config
      ⟨some 0, some 0, some 0, some 0, some 0, some 0, some 0, some 0⟩
      ⟨some 9, none, none, none, none, none, some 7, none⟩).i2c_port = 9 ∧
    (load_config
      ⟨some 0, some 0, some 0, some 0, some 0, some 0, some 0, some 0⟩
      ⟨some 9, none, none, none, none, none, some 7, none⟩).x_offset = 0 :=
  ⟨(load_config_cli_precedence
      ⟨some 0, some 0, some 0, some 0, some 0, some 0, some 0, some 0⟩
      ⟨some 9, none, none, none, none, none, some 7, none⟩).1 rfl,
   (load_config_cli_precedence
      ⟨some 0, some 0, some 0, some 0, some 0, some 0, some 0, some 0⟩
      ⟨some 9, none, none, none, none, none, some 7, none⟩).2.2.2.2.2.2.2.2.2.2.1 0 rfl⟩

/-- C2: the watchdog counter resets to 0 on any successful tick, is
incremented by 1 on each failed tick, and the loop raises the terminating
`RuntimeError` exactly when the counter reaches 10; nine consecutive
failures followed by a success leave the loop running with a zero counter,
while ten consecutive failures terminate it. -/
theorem runLoop_watchdog :
    ∀ (c : Nat) (ts : List Bool),
      runLoop c (true :: ts) = runLoop 0 ts ∧
      (c + 1 < max_watchdog_errors → runLoop c (false :: ts) = runLoop (c + 1) ts) ∧
      (c + 1 ≥ max_watchdog_errors → runLoop c (false :: ts) = none) ∧
      runLoop 0 (List.replicate 9 false ++ true :: ts) = runLoop 0 ts ∧
      runLoop 0 (List.replicate 10 false ++ ts) = none := by
  intro c ts
  refine ⟨rfl, fun h => ?_, fun h => ?_, rfl, rfl⟩
  · have hd : decide (c + 1 ≥ max_watchdog_errors) = false := by
      simpa using Nat.not_le_of_lt h
    simp [runLoop, watchdogStep, hd]
  · have hd : decide (c + 1 ≥ max_watchdog_errors) = true := by simpa using h
    simp [runLoop, watchdogStep, hd]

/-- Closed instance of `runLoop_watchdog`: with the counter at 8 one more
failure keeps the loop alive, with the counter at 9 one more failure (the
tenth consecutive one) terminates it. -/
theorem runLoop_watchdog_witness :
    runLoop 8 [false] = runLoop 9 [] ∧ runLoop 9 [false] = none :=
  ⟨(runLoop_watchdog 8 []).2.1 (by decide),
   (runLoop_watchdog 9 []).2.2.1 (by decide)⟩

/-- C3 counterexample: ten consecutive `display_info` failures are exactly
a watchdog exhaustion of the loop, yet `main` exits with status 0 — the
`RuntimeError` of line 432 is caught by the `except Exception` clause of
line 443, cleanup runs in `finally`, and `main` returns normally, so the
claimed non-zero exit status on watchdog exhaustion is false. -/
theorem main_watchdog_exit_zero :
    runLoop 0 (List.replicate 10 false) = none ∧
    (mainModel true (List.replicate 10 false)).exitCode = 0 := by decide

/-- C3 amended: the process exits with status 0 on clean termination, and
also with status 0 on watchdog exhaustion — in both cases after running
the shutdown cleanup exactly once — while a startup failure (no usable
network interface) exits with a non-zero status before any cleanup. -/
theorem main_exit_spec :
    ∀ trace : List Bool,
      mainModel false trace = { exitCode := 1, cleanupCalls := 0 } ∧
      (mainModel false trace).exitCode ≠ 0 ∧
      (runLoop 0 trace = none →
        mainModel true trace = { exitCode := 0, cleanupCalls := 1 }) ∧
      (runLoop 0 trace ≠ none →
        mainModel true trace = { exitCode := 0, cleanupCalls := 1 }) := by
  intro trace
  refine ⟨rfl, by simp [mainModel], fun h => ?_, fun h => ?_⟩
  · simp [mainModel, h]
  · rcases hr : runLoop 0 trace with _ | c
    · exact absurd hr h
    · simp [mainModel, hr]

/-- Closed instance of `main_exit_spec`: the watchdog-exhaustion trace and
a clean one-tick trace both exit 0 after exactly one cleanup. -/
theorem main_exit_spec_witness :
    mainModel true (List.replicate 10 false) = { exitCode := 0, cleanupCalls := 1 } ∧
    mainModel true [true] = { exitCode := 0, cleanupCalls := 1 } :=
  ⟨(main_exit_spec (List.replicate 10 false)).2.2.1 (by decide),
   (main_exit_spec [true]).2.2.2 (by decide)⟩

/-- C8: `cleanup` is idempotent — after any call the device handle is
absent, and a second call (under any failure pattern of the raw device
calls, which the embedding totalises because every exception is swallowed)
changes nothing and attempts zero device operations. -/
theorem cleanup_idempotent :
    ∀ (env env2 : DevEnv) (s : Sys),
      (cleanup env s).1.device = false ∧
      cleanup env2 (cleanup env s).1 = ((cleanup env s).1, 0) := by
  intro env env2 s
  cases hd : s.device <;>
    cases hh : env.hideRes <;>
      simp [cleanup, clear_screen, hd, hh]

/-- C4: every failing `init_display` sets the device handle to absent and
returns failure (never a half-configured handle), and every successful
`init_display` installs a handle and refreshes `last_reset_time` to the
current time. -/
theorem init_display_spec :
    ∀ (oracle : Nat → Bool) (now : ℚ) (s : Sys),
      (oracle s.initCount = false →
        init_display oracle now s =
          (false, { device := false, last_reset_time := s.last_reset_time,
                    initCount := s.initCount + 1 })) ∧
      (oracle s.initCount = true →
        init_display oracle now s =
          (true, { device := true, last_reset_time := now,
                   initCount := s.initCount + 1 })) := by
  intro oracle now s
  refine ⟨fun h => ?_, fun h => ?_⟩ <;> simp [init_display, h]

/-- Closed instance of `init_display_spec` at a concrete state. -/
theorem init_display_spec_witness :
    init_display (fun _ => false) 5 ⟨true, 2, 0⟩ = (false, ⟨false, 2, 1⟩) ∧
    init_display (fun _ => true) 5 ⟨true, 2, 0⟩ = (true, ⟨true, 5, 1⟩) :=
  ⟨(init_display_spec (fun _ => false) 5 ⟨true, 2, 0⟩).1 rfl,
   (init_display_spec (fun _ => true) 5 ⟨true, 2, 0⟩).2 rfl⟩

/-- C1: when the elapsed time since `last_reset_time` does not exceed the
reset interval, `check_and_reset` returns `True` with no state change (in
particular no `init_display`); when it does, it runs a full `init_display`
and returns its outcome; and after a crossing whose `init_display`
succeeded, every further call within the refreshed interval performs no
reinitialization — at most one `init_display` per crossing. -/
theorem check_and_reset_spec :
    ∀ (cfg : Config) (oracle oracle2 : Nat → Bool) (now now2 : ℚ) (s : Sys),
      (now - s.last_reset_time ≤ cfg.reset_interval →
        check_and_reset cfg oracle now s = (true, s)) ∧
      (now - s.last_reset_time > cfg.reset_interval →
        check_and_reset cfg oracle now s = init_display oracle now s) ∧
      (now - s.last_reset_time > cfg.reset_interval →
        oracle s.initCount = true →
        now2 - now ≤ cfg.reset_interval →
        check_and_reset cfg oracle2 now2 (check_and_reset cfg oracle now s).2 =
          (true, (check_and_reset cfg oracle now s).2)) := by
  intro cfg oracle oracle2 now now2 s
  refine ⟨fun h => ?_, fun h => ?_, fun h hok h2 => ?_⟩
  · simp [check_and_reset, not_lt.mpr h]
  · simp [check_and_reset, h]
  · have hs : (check_and_reset cfg oracle now s).2 =
        { device := true, last_reset_time := now, initCount := s.initCount + 1 } := by
      simp [check_and_reset, h, init_display, hok]
    rw [hs]
    simp [check_and_reset, not_lt.mpr h2]

/-- Closed instance of `check_and_reset_spec`: interval 10, last reset at
time 0; a call at time 5 is a no-op, a call at time 20 runs `init_display`,
and after that successful reset a call at time 25 is again a no-op. -/
theorem check_and_reset_spec_witness :
    check_and_reset ⟨10⟩ (fun _ => true) 5 ⟨true, 0, 0⟩ = (true, ⟨true, 0, 0⟩) ∧
    check_and_reset ⟨10⟩ (fun _ => true) 20 ⟨true, 0, 0⟩ =
      init_display (fun _ => true) 20 ⟨true, 0, 0⟩ ∧
    check_and_reset ⟨10⟩ (fun _ => false) 25
        (check_and_reset ⟨10⟩ (fun _ => true) 20 ⟨true, 0, 0⟩).2 =
      (true, (check_and_reset ⟨10⟩ (fun _ => true) 20 ⟨true, 0, 0⟩).2) :=
  ⟨(check_and_reset_spec ⟨10⟩ (fun _ => true) (fun _ => false) 5 25 ⟨true, 0, 0⟩).1
      (by norm_num),
   (check_and_reset_spec ⟨10⟩ (fun _ => true) (fun _ => false) 20 25 ⟨true, 0, 0⟩).2.1
      (by norm_num),
   (check_and_reset_spec ⟨10⟩ (fun _ => true) (fun _ => false) 20 25 ⟨true, 0, 0⟩).2.2
      (by norm_num) rfl (by norm_num)⟩

/-- C5: `display_info` with an absent handle attempts one recovery
`init_display` — giving up (returning `False`) exactly when that attempt
fails, and proceeding to a successful draw when it succeeds; with a live
handle and a passed `check_and_reset`, a drawing failure triggers a
recovery `init_display` before `False` is reported; even when the
`check_and_reset`-internal `init_display` fails, one more recovery attempt
is made before drawing; and `display_info` never reports failure without
having attempted at least one `init_display`. -/
theorem display_info_spec :
    ∀ (cfg : Config) (oracle : Nat → Bool) (drawOk : Bool) (now : ℚ) (s : Sys),
      (s.device = false → oracle s.initCount = false →
        display_info cfg oracle drawOk now s =
          (false, { device := false, last_reset_time := s.last_reset_time,
                    initCount := s.initCount + 1 })) ∧
      (s.device = false → oracle s.initCount = true → drawOk = true →
        display_info cfg oracle drawOk now s =
          (true, { device := true, last_reset_time := now,
                   initCount := s.initCount + 1 })) ∧
      (s.device = true → now - s.last_reset_time ≤ cfg.reset_interval → drawOk = false →
        display_info cfg oracle drawOk now s = (false, (init_display oracle now s).2)) ∧
      (s.device = true → now - s.last_reset_time > cfg.reset_interval →
        oracle s.initCount = false → oracle (s.initCount + 1) = true → drawOk = true →
        (display_info cfg oracle drawOk now s).1 = true) ∧
      ((display_info cfg oracle drawOk now s).1 = false →
        (display_info cfg oracle drawOk now s).2.initCount > s.initCount) := by
  intro cfg oracle drawOk now s
  refine ⟨fun hdev hor => ?_, fun hdev hor hdraw => ?_, fun hdev ht hdraw => ?_,
    fun hdev ht hor1 hor2 hdraw => ?_, ?_⟩
  · simp [display_info, init_display, hdev, hor]
  · simp [display_info, init_display, hdev, hor, hdraw]
  · simp [display_info, check_and_reset, hdev, not_lt.mpr ht, hdraw]
  · simp [display_info, check_and_reset, init_display, hdev, ht, hor1, hor2, hdraw]
  · cases hdev : s.device <;>
      cases hdraw : drawOk <;>
        cases hor1 : oracle s.initCount <;>
          cases hor2 : oracle (s.initCount + 1) <;>
            cases hor3 : oracle (s.initCount + 1 + 1) <;>
              by_cases ht : now - s.last_reset_time > cfg.reset_interval <;>
                simp [display_info, check_and_reset, init_display, hdev, hdraw,
                  hor1, hor2, hor3, ht] <;>
                  omega

/-- Closed instance of `display_info_spec`: interval 10, last reset at 0.
With no handle and a failing open, one attempt is made and `False`
returned; with no handle, a working open and a working draw, it
succeeds; with a live handle inside the window and a failing draw, a
recovery `init_display` runs before `False` is reported; failure always
comes with at least one `init_display` attempted. -/
theorem display_info_spec_witness :
    display_info ⟨10⟩ (fun _ => false) true 5 ⟨false, 0, 0⟩ = (false, ⟨false, 0, 1⟩) ∧
    display_info ⟨10⟩ (fun _ => true) true 5 ⟨false, 0, 0⟩ = (true, ⟨true, 5, 1⟩) ∧
    display_info ⟨10⟩ (fun _ => true) false 5 ⟨true, 0, 0⟩ =
      (false, (init_display (fun _ => true) 5 ⟨true, 0, 0⟩).2) ∧
    (display_info ⟨10⟩ (fun _ => false) true 5 ⟨false, 0, 0⟩).2.initCount > 0 :=
  ⟨(display_info_spec ⟨10⟩ (fun _ => false) true 5 ⟨false, 0, 0⟩).1 rfl rfl,
   (display_info_spec ⟨10⟩ (fun _ => true) true 5 ⟨false, 0, 0⟩).2.1 rfl rfl rfl,
   (display_info_spec ⟨10⟩ (fun _ => true) false 5 ⟨true, 0, 0⟩).2.2.1 rfl
      (by norm_num) rfl,
   (display_info_spec ⟨10⟩ (fun _ => false) true 5 ⟨false, 0, 0⟩).2.2.2.2
      ((display_info_spec ⟨10⟩ (fun _ => false) true 5 ⟨false, 0, 0⟩).1 rfl rfl ▸ rfl)⟩

end OledMonitor
